import Mathlib

/-!
Shallow embedding of `transport/internet/websocket/hub.go`: the layered
WebSocket listener pipeline (camouflage responders, the upgrade dispatcher
`requestHandler.ServeHTTP`, the upgrader parameters, `ListenWS` wrapping
order and server configuration, and `Listener.Close`).

Collaborators that are not part of the given sources (the forwarding-header
parser, the address type, the framing upgrade, the system listener, path
normalization, the framed-connection constructor) are modelled from the
spec; each such definition carries a doc comment starting with
`Modelled from the spec:`.
-/

namespace Websocket

/-- A Go `net.Addr` as the request handler sees it: either a `*net.TCPAddr`
(an IP rendered as its literal, plus a port) or some other address type.
The `other` constructor exists because the handler performs an unchecked
type assertion `remoteAddr.(*net.TCPAddr)`. -/
inductive GoAddr where
  | tcp (ip : String) (port : Int)
  | other (network : String) (str : String)
  deriving DecidableEq, Repr

/-- Split a list of characters at every occurrence of a separator, keeping
empty pieces, with an accumulator for the piece being read. -/
def splitOnCharAux (c : Char) : List Char → List Char → List (List Char)
  | [], acc => [acc.reverse]
  | x :: xs, acc =>
    if x = c then acc.reverse :: splitOnCharAux c xs []
    else splitOnCharAux c xs (x :: acc)

/-- Split a string at every occurrence of a separator character (the
behavior of splitting on a one-character separator: the empty string yields
one empty piece). -/
def splitOnChar (c : Char) (s : String) : List String :=
  (splitOnCharAux c s.toList []).map fun l => ⟨l⟩

/-- Decimal value of a digit string. -/
def decimalValue (s : String) : Nat :=
  s.toList.foldl (fun n c => n * 10 + (c.toNat - 48)) 0

/-- One dotted-quad component: one to three decimal digits with value at
most 255. -/
def isIPv4Octet (s : String) : Bool :=
  decide (0 < s.toList.length) && decide (s.toList.length ≤ 3) &&
    s.toList.all Char.isDigit && decide (decimalValue s ≤ 255)

/-- Modelled from the spec: "only the first entry is honored, and only if it
parses as a valid IP literal". IP literals are modelled as IPv4 dotted-quad
literals; the IPv4/IPv6 distinction does not affect any claim. -/
def isIPLiteral (s : String) : Bool :=
  let parts := splitOnChar '.' s
  parts.length == 4 && parts.all isIPv4Octet

/-- Modelled from the spec: the repository's address type (`net.Address`),
which is either an IP address or a domain name; `Family().IsIP()`
distinguishes the two. -/
inductive Address where
  | ipAddr (lit : String)
  | domainAddr (s : String)
  deriving DecidableEq, Repr

/-- `Family().IsIP()` of an address. -/
def Address.isIP : Address → Bool
  | .ipAddr _ => true
  | .domainAddr _ => false

/-- `.IP()` of an address: the IP literal; only ever used under an `isIP`
guard, so the domain case returns a dummy value. -/
def Address.ipStr : Address → String
  | .ipAddr lit => lit
  | .domainAddr _ => ""

/-- Modelled from the spec: parsing one forwarding-header entry as an
address — an IP address when it is a valid IP literal, a domain name
otherwise. -/
def ParseAddress (s : String) : Address :=
  if isIPLiteral s then .ipAddr s else .domainAddr s

/-- Modelled from the spec: `http_proto.ParseXForwardedFor` (not among the
given sources) — "zero or more client addresses parsed from a
comma-separated forwarding header (ordered, leftmost = original client)".
`none` models an absent header; an absent or empty header yields no
addresses. -/
def ParseXForwardedFor (xff : Option String) : List Address :=
  match xff with
  | none => []
  | some v => if v = "" then [] else (splitOnChar ',' v).map ParseAddress

/-- The upgraded WebSocket connection, carrying the current value of its
remote-address object (`conn.RemoteAddr()`). -/
structure WSConn where
  remoteAddr : GoAddr
  deriving DecidableEq, Repr

/-- An incoming HTTP request: its URL path, its forwarding header (`none`
when absent), and the outcome the framing collaborator's handshake would
have on it (`some conn` for a request with a valid upgrade handshake). -/
structure Request where
  urlPath : String
  xForwardedFor : Option String
  upgradeOutcome : Option WSConn
  deriving DecidableEq, Repr

/-- A `http.ResponseWriter`: accumulated headers, the status code once
written, and the body bytes written so far. -/
structure ResponseWriter where
  headers : List (String × String)
  status : Option Nat
  body : String
  deriving DecidableEq, Repr

/-- The fresh writer a handler receives for a new request. -/
def emptyWriter : ResponseWriter := ⟨[], none, ""⟩

/-- `writer.Header().Set(k, v)`: replaces any existing value for the key. -/
def ResponseWriter.setHeader (w : ResponseWriter) (k v : String) : ResponseWriter :=
  { w with headers := (w.headers.filter fun p => p.1 != k) ++ [(k, v)] }

/-- `writer.WriteHeader(code)`: only the first call takes effect. -/
def ResponseWriter.writeHeader (w : ResponseWriter) (code : Nat) : ResponseWriter :=
  match w.status with
  | none => { w with status := some code }
  | some _ => w

/-- `writer.Write(s)`: writes the body, defaulting the status to 200 when no
status has been written yet. -/
def ResponseWriter.write (w : ResponseWriter) (s : String) : ResponseWriter :=
  match w.status with
  | none => { w with status := some 200, body := w.body ++ s }
  | some _ => { w with body := w.body ++ s }

/-- The fixed 403 camouflage body (`forbiddenContent` in the source). -/
def forbiddenContent : String :=
  "<html>\n<head><title>403 Forbidden</title></head>\n<body>\n<center><h1>403 Forbidden</h1></center>\n<hr><center>nginx</center>\n</body>\n</html>"

/-- The fixed 404 camouflage body (`notFoundContent` in the source). -/
def notFoundContent : String :=
  "<html>\n<head><title>404 Not Found</title></head>\n<body>\n<center><h1>404 Not Found</h1></center>\n<hr><center>nginx</center>\n</body>\n</html>"

/-- `forbiddenHandler`: Server and Content-Type headers, status 403, then
the fixed body. -/
def forbiddenHandler (w : ResponseWriter) : ResponseWriter :=
  (((w.setHeader "Server" "nginx").setHeader "Content-Type" "text/html").writeHeader 403).write
    forbiddenContent

/-- `notFoundHandler`: Server and Content-Type headers, status 404, then
the fixed body. -/
def notFoundHandler (w : ResponseWriter) : ResponseWriter :=
  (((w.setHeader "Server" "nginx").setHeader "Content-Type" "text/html").writeHeader 404).write
    notFoundContent

/-- The framing collaborator's upgrader: buffer sizes, handshake timeout,
origin-check policy, and the error callback invoked on every failed
upgrade. -/
structure Upgrader where
  readBufferSize : Nat
  writeBufferSize : Nat
  handshakeTimeoutSeconds : Nat
  checkOrigin : Request → Bool
  onError : ResponseWriter → ResponseWriter

/-- The package-level `upgrader` value of the source. -/
def upgrader : Upgrader where
  readBufferSize := 4 * 1024
  writeBufferSize := 4 * 1024
  handshakeTimeoutSeconds := 4
  checkOrigin := fun _ => true
  onError := fun w => forbiddenHandler w

/-- Modelled from the spec: the framing collaborator's `Upgrade` (the
gorilla/websocket library, external). Whether the handshake succeeds is
carried by the request; on any failure the upgrader's error callback writes
to the response writer and no connection is produced. -/
def Upgrader.upgrade (u : Upgrader) (w : ResponseWriter) (req : Request) :
    ResponseWriter × Option WSConn :=
  match req.upgradeOutcome with
  | some c => (w, some c)
  | none => (u.onError w, none)

/-- Modelled from the spec: the framed connection handed to the consumer
(`newConnection(conn, remoteAddr)`, not among the given sources) — the
upgraded connection together with its resolved remote address. -/
structure Connection where
  conn : WSConn
  remote : GoAddr
  deriving DecidableEq, Repr

def newConnection (c : WSConn) (a : GoAddr) : Connection := ⟨c, a⟩

/-- Observable events of one dispatch: an upgrade attempt, the internal
logging of an upgrade failure, and the emission of a connection to the
consumer callback (`h.ln.addConn`). -/
inductive Event where
  | upgradeAttempt
  | logUpgradeError
  | emit (c : Connection)
  deriving DecidableEq, Repr

/-- Result of one dispatch: either a normal return or a runtime panic (a
failed type assertion), each with the final writer and the event trace. -/
inductive ServeOutcome where
  | ok (w : ResponseWriter) (events : List Event)
  | panicked (w : ResponseWriter) (events : List Event)
  deriving DecidableEq, Repr

def ServeOutcome.events : ServeOutcome → List Event
  | .ok _ es => es
  | .panicked _ es => es

def ServeOutcome.writer : ServeOutcome → ResponseWriter
  | .ok w _ => w
  | .panicked w _ => w

def ServeOutcome.isPanic : ServeOutcome → Bool
  | .ok _ _ => false
  | .panicked _ _ => true

/-- The connections emitted to the consumer callback during one dispatch. -/
def emittedConns (o : ServeOutcome) : List Connection :=
  o.events.filterMap fun e =>
    match e with
    | .emit c => some c
    | _ => none

/-- How many upgrade attempts one dispatch performed. -/
def upgradeAttemptCount (o : ServeOutcome) : Nat :=
  (o.events.filter fun e =>
    match e with
    | .upgradeAttempt => true
    | _ => false).length

/-- The HTTP handler of the source: the configured path (its `ln` field is
modelled by the event trace). -/
structure requestHandler where
  path : String
  deriving DecidableEq, Repr

/-- `requestHandler.ServeHTTP`: path check, upgrade attempt, forwarding
header resolution (with the in-place rewrite of the TCP address's IP, or a
panic when the remote address is not a TCP address), then emission. -/
def requestHandler.ServeHTTP (h : requestHandler) (req : Request) (w : ResponseWriter) :
    ServeOutcome :=
  if req.urlPath ≠ h.path then
    .ok (notFoundHandler w) []
  else
    match upgrader.upgrade w req with
    | (w2, none) => .ok w2 [.upgradeAttempt, .logUpgradeError]
    | (w2, some conn) =>
      let forwardedAddrs := ParseXForwardedFor req.xForwardedFor
      let remoteAddr := conn.remoteAddr
      match forwardedAddrs with
      | a :: _ =>
        if a.isIP then
          match remoteAddr with
          | .tcp _ port =>
            let rewritten := GoAddr.tcp a.ipStr port
            .ok w2 [.upgradeAttempt, .emit (newConnection { conn with remoteAddr := rewritten } rewritten)]
          | .other _ _ => .panicked w2 [.upgradeAttempt]
        else
          .ok w2 [.upgradeAttempt, .emit (newConnection conn remoteAddr)]
      | [] => .ok w2 [.upgradeAttempt, .emit (newConnection conn remoteAddr)]

/-- The protocol settings (`*Config` of the source's protobuf config): the
upgrade path and whether a proxy preamble must be accepted. -/
structure Config where
  path : String
  acceptProxyProtocol : Bool
  deriving DecidableEq, Repr

/-- Modelled from the spec: `Config.GetNormalizedPath` (not among the given
sources) — the configured path "normalized to begin with `/`" and non-empty
after normalization. -/
def Config.GetNormalizedPath (c : Config) : String :=
  match c.path.toList with
  | [] => "/"
  | ch :: _ => if ch = '/' then c.path else "/" ++ c.path

/-- The proxy-preamble wrapper's policy; the source always chooses
`proxyproto.REQUIRE`. -/
inductive ProxyPolicy where
  | REQUIRE
  deriving DecidableEq, Repr

/-- The composed listener chain: the system listener, optionally wrapped by
the preamble-consuming wrapper, optionally wrapped by the
transport-security wrapper. Each wrapper is an external collaborator; only
the composition order is this pipeline's. -/
inductive NetListener where
  | system (addr : GoAddr)
  | proxyprotoWrap (inner : NetListener) (policy : ProxyPolicy)
  | tlsWrap (inner : NetListener)
  deriving DecidableEq, Repr

/-- The parts of `internet.MemoryStreamConfig` the pipeline reads: the
protocol settings and whether a transport-security (TLS) configuration is
present and yields a TLS config. -/
structure MemoryStreamConfig where
  protocolSettings : Config
  hasTLSConfig : Bool
  deriving DecidableEq, Repr

/-- The fields set on the embedded `http.Server`. -/
structure HTTPServer where
  handlerPath : String
  readHeaderTimeoutSeconds : Nat
  maxHeaderBytes : Nat
  deriving DecidableEq, Repr

/-- Modelled from the spec: the close state of the underlying stream
listener opened by `internet.ListenSystem` (not among the given sources) —
the system TCP listener, whose `Close` closes it the first time and returns
an error when it is already closed. -/
structure SystemListenerState where
  closed : Bool
  deriving DecidableEq, Repr

/-- Modelled from the spec: `Close` of the underlying system TCP listener;
a second close performs no state change and returns an error. -/
def SystemListenerState.close (l : SystemListenerState) :
    SystemListenerState × Option String :=
  if l.closed then (l, some "use of closed network connection")
  else ({ closed := true }, none)

/-- The `Listener` struct of the source: the composed listener, the
protocol settings, the embedded HTTP server, and the close state of the
underlying listener (closing a wrapper forwards to the listener it wraps,
so the chain's close state is the system listener's). -/
structure Listener where
  listener : NetListener
  config : Config
  server : HTTPServer
  underlying : SystemListenerState
  deriving DecidableEq, Repr

/-- `Listener.Close`: `return ln.listener.Close()` — forwards to the
composed listener's close with no guard of its own. -/
def Listener.Close (l : Listener) : Listener × Option String :=
  match l.underlying.close with
  | (s, e) => ({ l with underlying := s }, e)

/-- `ListenWS`: bind the system listener (`bindOk` models whether
`internet.ListenSystem` succeeds), wrap it for the proxy preamble when
configured, then for transport security when configured, and construct the
HTTP server routed to the dispatcher on the normalized path. -/
def ListenWS (bindOk : Bool) (addr : GoAddr) (streamSettings : MemoryStreamConfig) :
    Option Listener :=
  if bindOk then
    let listener0 := NetListener.system addr
    let wsSettings := streamSettings.protocolSettings
    let listener1 :=
      if wsSettings.acceptProxyProtocol then NetListener.proxyprotoWrap listener0 .REQUIRE
      else listener0
    let listener2 :=
      if streamSettings.hasTLSConfig then NetListener.tlsWrap listener1
      else listener1
    some
      { listener := listener2
        config := wsSettings
        server :=
          { handlerPath := wsSettings.GetNormalizedPath
            readHeaderTimeoutSeconds := 4
            maxHeaderBytes := 2048 }
        underlying := { closed := false } }
  else none

/-- A request served by the constructed pipeline goes through the HTTP
server's sole handler. -/
def Listener.serve (l : Listener) (req : Request) (w : ResponseWriter) : ServeOutcome :=
  requestHandler.ServeHTTP ⟨l.server.handlerPath⟩ req w

/-- The resolution policy exactly as the specification words it, for
comparison with the dispatcher's behavior: the first entry of the
comma-separated forwarding header, with the port taken from the physical
connection, when that header is present and its first entry is a valid IP
literal; otherwise the unmodified physical address. -/
def specResolvedRemoteAddr (xff : Option String) (physIP : String) (physPort : Int) :
    GoAddr :=
  match xff with
  | none => GoAddr.tcp physIP physPort
  | some v =>
    match splitOnChar ',' v with
    | [] => GoAddr.tcp physIP physPort
    | e :: _ =>
      if isIPLiteral e then GoAddr.tcp e physPort else GoAddr.tcp physIP physPort

/-- C7: the upgrade is always attempted with the fixed parameters: 4096-byte
read and write buffers, a 4-second handshake timeout, an origin check that
accepts every origin, and an error callback that on any upgrade failure
emits the 403 camouflage response. -/
theorem upgrader_fixed_parameters :
    upgrader.readBufferSize = 4096 ∧ upgrader.writeBufferSize = 4096 ∧
    upgrader.handshakeTimeoutSeconds = 4 ∧
    (∀ r : Request, upgrader.checkOrigin r = true) ∧
    (∀ w : ResponseWriter, upgrader.onError w = forbiddenHandler w) :=
  ⟨rfl, rfl, rfl, fun _ => rfl, fun _ => rfl⟩

/-- C5 counterexample: the 403 and 404 camouflage responders do not produce
a byte-identical HTML body — their fixed bodies differ (403 Forbidden
versus 404 Not Found). -/
theorem camouflage_bodies_not_identical :
    (forbiddenHandler emptyWriter).body ≠ (notFoundHandler emptyWriter).body := by
  decide

/-- C5 (amended): each camouflage responder produces its own fixed HTML
body — the fixed 403 body and the fixed 404 body respectively — together
with a Server header claiming nginx (and a text/html Content-Type) and the
appropriate status (403 or 404). -/
theorem camouflage_responses_fixed :
    (forbiddenHandler emptyWriter).status = some 403 ∧
    (forbiddenHandler emptyWriter).body = forbiddenContent ∧
    (forbiddenHandler emptyWriter).headers =
      [("Server", "nginx"), ("Content-Type", "text/html")] ∧
    (notFoundHandler emptyWriter).status = some 404 ∧
    (notFoundHandler emptyWriter).body = notFoundContent ∧
    (notFoundHandler emptyWriter).headers =
      [("Server", "nginx"), ("Content-Type", "text/html")] := by
  refine ⟨rfl, by decide, by decide, rfl, by decide, by decide⟩

/-- C2: a request whose path differs from the configured path gets exactly
the 404 camouflage response (status 404, the fixed 404 body, the nginx
Server header), with no upgrade attempt and no connection emitted to the
consumer callback. -/
theorem serve_path_mismatch (p : String) (req : Request) (h : req.urlPath ≠ p) :
    requestHandler.ServeHTTP ⟨p⟩ req emptyWriter = .ok (notFoundHandler emptyWriter) [] ∧
    (notFoundHandler emptyWriter).status = some 404 ∧
    (notFoundHandler emptyWriter).body = notFoundContent ∧
    upgradeAttemptCount (requestHandler.ServeHTTP ⟨p⟩ req emptyWriter) = 0 ∧
    emittedConns (requestHandler.ServeHTTP ⟨p⟩ req emptyWriter) = [] := by
  have hs : requestHandler.ServeHTTP ⟨p⟩ req emptyWriter = .ok (notFoundHandler emptyWriter) [] := by
    simp [requestHandler.ServeHTTP, h]
  refine ⟨hs, rfl, by decide, ?_, ?_⟩ <;>
    simp [hs, upgradeAttemptCount, emittedConns, ServeOutcome.events]

theorem serve_path_mismatch_witness :
    ("/other" : String) ≠ "/ws" ∧
    (requestHandler.ServeHTTP ⟨"/ws"⟩ ⟨"/other", none, none⟩ emptyWriter =
      .ok (notFoundHandler emptyWriter) [] ∧
    (notFoundHandler emptyWriter).status = some 404 ∧
    (notFoundHandler emptyWriter).body = notFoundContent ∧
    upgradeAttemptCount (requestHandler.ServeHTTP ⟨"/ws"⟩ ⟨"/other", none, none⟩ emptyWriter) = 0 ∧
    emittedConns (requestHandler.ServeHTTP ⟨"/ws"⟩ ⟨"/other", none, none⟩ emptyWriter) = []) :=
  ⟨by decide, serve_path_mismatch "/ws" ⟨"/other", none, none⟩ (by decide)⟩

/-- C3: a request that matches the configured path but whose upgrade fails
gets exactly the 403 camouflage response written by the upgrader's error
callback, the underlying cause is logged internally, and no connection is
emitted to the consumer callback. -/
theorem serve_upgrade_failure (p : String) (req : Request)
    (h1 : req.urlPath = p) (h2 : req.upgradeOutcome = none) :
    requestHandler.ServeHTTP ⟨p⟩ req emptyWriter =
      .ok (forbiddenHandler emptyWriter) [.upgradeAttempt, .logUpgradeError] ∧
    (forbiddenHandler emptyWriter).status = some 403 ∧
    (forbiddenHandler emptyWriter).body = forbiddenContent ∧
    emittedConns (requestHandler.ServeHTTP ⟨p⟩ req emptyWriter) = [] := by
  have hs : requestHandler.ServeHTTP ⟨p⟩ req emptyWriter =
      .ok (forbiddenHandler emptyWriter) [.upgradeAttempt, .logUpgradeError] := by
    simp [requestHandler.ServeHTTP, Upgrader.upgrade, upgrader, h1, h2]
  refine ⟨hs, rfl, by decide, ?_⟩
  simp [hs, emittedConns, ServeOutcome.events]

theorem serve_upgrade_failure_witness :
    (⟨"/ws", none, none⟩ : Request).urlPath = "/ws" ∧
    (⟨"/ws", none, none⟩ : Request).upgradeOutcome = none ∧
    (requestHandler.ServeHTTP ⟨"/ws"⟩ ⟨"/ws", none, none⟩ emptyWriter =
      .ok (forbiddenHandler emptyWriter) [.upgradeAttempt, .logUpgradeError] ∧
    (forbiddenHandler emptyWriter).status = some 403 ∧
    (forbiddenHandler emptyWriter).body = forbiddenContent ∧
    emittedConns (requestHandler.ServeHTTP ⟨"/ws"⟩ ⟨"/ws", none, none⟩ emptyWriter) = []) :=
  ⟨rfl, rfl, serve_upgrade_failure "/ws" ⟨"/ws", none, none⟩ rfl rfl⟩

/-- C1: a successfully upgraded request (whose physical remote address is,
as for every TCP-based connection of this listener, a TCP address) emits
exactly one connection to the consumer callback, never panics, and the
resolved remote address handed over equals the first entry of the
comma-separated forwarding header with the physical port when that header
is present and its first entry is a valid IP literal, and the unmodified
physical address otherwise — for every header value, malformed ones
included. -/
theorem serve_success_resolution (p : String) (req : Request) (conn : WSConn)
    (ip : String) (port : Int)
    (h1 : req.urlPath = p) (h2 : req.upgradeOutcome = some conn)
    (h3 : conn.remoteAddr = GoAddr.tcp ip port) :
    (requestHandler.ServeHTTP ⟨p⟩ req emptyWriter).isPanic = false ∧
    ∃ c, emittedConns (requestHandler.ServeHTTP ⟨p⟩ req emptyWriter) = [c] ∧
      c.remote = specResolvedRemoteAddr req.xForwardedFor ip port := by
  cases hx : req.xForwardedFor with
  | none =>
    have hs : requestHandler.ServeHTTP ⟨p⟩ req emptyWriter =
        .ok emptyWriter [.upgradeAttempt, .emit (newConnection conn conn.remoteAddr)] := by
      simp [requestHandler.ServeHTTP, Upgrader.upgrade, h1, h2, ParseXForwardedFor, hx]
    refine ⟨by simp [hs, ServeOutcome.isPanic], newConnection conn conn.remoteAddr, ?_, ?_⟩
    · simp [hs, emittedConns, ServeOutcome.events]
    · simp [newConnection, h3, specResolvedRemoteAddr]
  | some v =>
    by_cases hv : v = ""
    · subst hv
      have hs : requestHandler.ServeHTTP ⟨p⟩ req emptyWriter =
          .ok emptyWriter [.upgradeAttempt, .emit (newConnection conn conn.remoteAddr)] := by
        simp [requestHandler.ServeHTTP, Upgrader.upgrade, h1, h2, ParseXForwardedFor, hx]
      refine ⟨by simp [hs, ServeOutcome.isPanic], newConnection conn conn.remoteAddr, ?_, ?_⟩
      · simp [hs, emittedConns, ServeOutcome.events]
      · simp only [newConnection, h3]
        rfl
    · cases hsp : splitOnChar ',' v with
      | nil =>
        have hs : requestHandler.ServeHTTP ⟨p⟩ req emptyWriter =
            .ok emptyWriter [.upgradeAttempt, .emit (newConnection conn conn.remoteAddr)] := by
          simp [requestHandler.ServeHTTP, Upgrader.upgrade, h1, h2, ParseXForwardedFor, hx, hv, hsp]
        refine ⟨by simp [hs, ServeOutcome.isPanic], newConnection conn conn.remoteAddr, ?_, ?_⟩
        · simp [hs, emittedConns, ServeOutcome.events]
        · simp [newConnection, h3, specResolvedRemoteAddr, hsp]
      | cons e rest =>
        by_cases hip : isIPLiteral e = true
        · have hs : requestHandler.ServeHTTP ⟨p⟩ req emptyWriter =
              .ok emptyWriter [.upgradeAttempt,
                .emit (newConnection ⟨GoAddr.tcp e port⟩ (GoAddr.tcp e port))] := by
            simp [requestHandler.ServeHTTP, Upgrader.upgrade, h1, h2, ParseXForwardedFor, hx, hv,
              hsp, ParseAddress, hip, Address.isIP, Address.ipStr, h3, newConnection]
          refine ⟨by simp [hs, ServeOutcome.isPanic],
            newConnection ⟨GoAddr.tcp e port⟩ (GoAddr.tcp e port), ?_, ?_⟩
          · simp [hs, emittedConns, ServeOutcome.events]
          · simp [newConnection, specResolvedRemoteAddr, hsp, hip]
        · have hs : requestHandler.ServeHTTP ⟨p⟩ req emptyWriter =
              .ok emptyWriter [.upgradeAttempt, .emit (newConnection conn conn.remoteAddr)] := by
            simp [requestHandler.ServeHTTP, Upgrader.upgrade, h1, h2, ParseXForwardedFor, hx, hv,
              hsp, ParseAddress, hip, Address.isIP]
          refine ⟨by simp [hs, ServeOutcome.isPanic], newConnection conn conn.remoteAddr, ?_, ?_⟩
          · simp [hs, emittedConns, ServeOutcome.events]
          · simp [newConnection, h3, specResolvedRemoteAddr, hsp, hip]

theorem serve_success_resolution_witness :
    (⟨"/ws", some "203.0.113.7, 10.0.0.1", some ⟨GoAddr.tcp "10.0.0.2" 5555⟩⟩ : Request).urlPath = "/ws" ∧
    (⟨"/ws", some "203.0.113.7, 10.0.0.1", some ⟨GoAddr.tcp "10.0.0.2" 5555⟩⟩ : Request).upgradeOutcome
      = some ⟨GoAddr.tcp "10.0.0.2" 5555⟩ ∧
    (WSConn.mk (GoAddr.tcp "10.0.0.2" 5555)).remoteAddr = GoAddr.tcp "10.0.0.2" 5555 ∧
    ((requestHandler.ServeHTTP ⟨"/ws"⟩
        ⟨"/ws", some "203.0.113.7, 10.0.0.1", some ⟨GoAddr.tcp "10.0.0.2" 5555⟩⟩ emptyWriter).isPanic = false ∧
    ∃ c, emittedConns (requestHandler.ServeHTTP ⟨"/ws"⟩
        ⟨"/ws", some "203.0.113.7, 10.0.0.1", some ⟨GoAddr.tcp "10.0.0.2" 5555⟩⟩ emptyWriter) = [c] ∧
      c.remote = specResolvedRemoteAddr (some "203.0.113.7, 10.0.0.1") "10.0.0.2" 5555) :=
  ⟨rfl, rfl, rfl,
    serve_success_resolution "/ws" ⟨"/ws", some "203.0.113.7, 10.0.0.1", some ⟨GoAddr.tcp "10.0.0.2" 5555⟩⟩
      ⟨GoAddr.tcp "10.0.0.2" 5555⟩ "10.0.0.2" 5555 rfl rfl rfl⟩

/-- C9: address resolution performs an unchecked dynamic cast to a TCP
address — when the upgraded connection's remote address is not a TCP
address and the forwarding header's first entry is a valid IP, the handler
panics instead of degrading to the physical address, and emits nothing. -/
theorem serve_nontcp_panics (p : String) (req : Request) (conn : WSConn)
    (nw s : String) (a : Address) (rest : List Address)
    (h1 : req.urlPath = p) (h2 : req.upgradeOutcome = some conn)
    (h3 : conn.remoteAddr = GoAddr.other nw s)
    (h4 : ParseXForwardedFor req.xForwardedFor = a :: rest) (h5 : a.isIP = true) :
    requestHandler.ServeHTTP ⟨p⟩ req emptyWriter = .panicked emptyWriter [.upgradeAttempt] ∧
    emittedConns (requestHandler.ServeHTTP ⟨p⟩ req emptyWriter) = [] := by
  have hs : requestHandler.ServeHTTP ⟨p⟩ req emptyWriter =
      .panicked emptyWriter [.upgradeAttempt] := by
    simp [requestHandler.ServeHTTP, Upgrader.upgrade, h1, h2, h3, h4, h5]
  exact ⟨hs, by simp [hs, emittedConns, ServeOutcome.events]⟩

theorem serve_nontcp_panics_witness :
    (⟨"/ws", some "1.2.3.4", some ⟨GoAddr.other "unix" "sock"⟩⟩ : Request).urlPath = "/ws" ∧
    (⟨"/ws", some "1.2.3.4", some ⟨GoAddr.other "unix" "sock"⟩⟩ : Request).upgradeOutcome
      = some ⟨GoAddr.other "unix" "sock"⟩ ∧
    (WSConn.mk (GoAddr.other "unix" "sock")).remoteAddr = GoAddr.other "unix" "sock" ∧
    ParseXForwardedFor (some "1.2.3.4") = [Address.ipAddr "1.2.3.4"] ∧
    (Address.ipAddr "1.2.3.4").isIP = true ∧
    (requestHandler.ServeHTTP ⟨"/ws"⟩ ⟨"/ws", some "1.2.3.4", some ⟨GoAddr.other "unix" "sock"⟩⟩
        emptyWriter = .panicked emptyWriter [.upgradeAttempt] ∧
      emittedConns (requestHandler.ServeHTTP ⟨"/ws"⟩
        ⟨"/ws", some "1.2.3.4", some ⟨GoAddr.other "unix" "sock"⟩⟩ emptyWriter) = []) :=
  ⟨rfl, rfl, rfl, by decide, rfl,
    serve_nontcp_panics "/ws" ⟨"/ws", some "1.2.3.4", some ⟨GoAddr.other "unix" "sock"⟩⟩
      ⟨GoAddr.other "unix" "sock"⟩ "unix" "sock" (Address.ipAddr "1.2.3.4") []
      rfl rfl rfl (by decide) rfl⟩

/-- C10: when a valid forwarding-header IP is honored, only the IP portion
of the TCP address is rewritten — the port stays that of the physical
connection — and the address handed to the consumer is the connection's own
(mutated-in-place) remote address, so the emitted connection reports the
rewritten IP as its remote address. -/
theorem serve_rewrites_in_place (p : String) (req : Request) (conn : WSConn)
    (ip : String) (port : Int) (a : Address) (rest : List Address)
    (h1 : req.urlPath = p) (h2 : req.upgradeOutcome = some conn)
    (h3 : conn.remoteAddr = GoAddr.tcp ip port)
    (h4 : ParseXForwardedFor req.xForwardedFor = a :: rest) (h5 : a.isIP = true) :
    ∃ c, emittedConns (requestHandler.ServeHTTP ⟨p⟩ req emptyWriter) = [c] ∧
      c.remote = GoAddr.tcp a.ipStr port ∧
      c.conn.remoteAddr = c.remote := by
  have hs : requestHandler.ServeHTTP ⟨p⟩ req emptyWriter =
      .ok emptyWriter [.upgradeAttempt,
        .emit (newConnection ⟨GoAddr.tcp a.ipStr port⟩ (GoAddr.tcp a.ipStr port))] := by
    simp [requestHandler.ServeHTTP, Upgrader.upgrade, h1, h2, h3, h4, h5, newConnection]
  exact ⟨newConnection ⟨GoAddr.tcp a.ipStr port⟩ (GoAddr.tcp a.ipStr port),
    by simp [hs, emittedConns, ServeOutcome.events], rfl, rfl⟩

theorem serve_rewrites_in_place_witness :
    (⟨"/ws", some "203.0.113.7", some ⟨GoAddr.tcp "10.0.0.2" 5555⟩⟩ : Request).urlPath = "/ws" ∧
    (⟨"/ws", some "203.0.113.7", some ⟨GoAddr.tcp "10.0.0.2" 5555⟩⟩ : Request).upgradeOutcome
      = some ⟨GoAddr.tcp "10.0.0.2" 5555⟩ ∧
    (WSConn.mk (GoAddr.tcp "10.0.0.2" 5555)).remoteAddr = GoAddr.tcp "10.0.0.2" 5555 ∧
    ParseXForwardedFor (some "203.0.113.7") = [Address.ipAddr "203.0.113.7"] ∧
    (Address.ipAddr "203.0.113.7").isIP = true ∧
    ∃ c, emittedConns (requestHandler.ServeHTTP ⟨"/ws"⟩
        ⟨"/ws", some "203.0.113.7", some ⟨GoAddr.tcp "10.0.0.2" 5555⟩⟩ emptyWriter) = [c] ∧
      c.remote = GoAddr.tcp (Address.ipAddr "203.0.113.7").ipStr 5555 ∧
      c.conn.remoteAddr = c.remote :=
  ⟨rfl, rfl, rfl, by decide, rfl,
    serve_rewrites_in_place "/ws" ⟨"/ws", some "203.0.113.7", some ⟨GoAddr.tcp "10.0.0.2" 5555⟩⟩
      ⟨GoAddr.tcp "10.0.0.2" 5555⟩ "10.0.0.2" 5555 (Address.ipAddr "203.0.113.7") []
      rfl rfl rfl (by decide) rfl⟩

/-- C6: when binding succeeds, the proxy-preamble wrapper (with the
"preamble required" policy) is applied before the transport-security
wrapper, so when both are configured the security layer sits outside the
proxy-preamble layer around the system listener; each wrapper is applied
exactly when its configuration is present. -/
theorem listen_wrapping_order (bindOk : Bool) (addr : GoAddr)
    (ss : MemoryStreamConfig) (h : bindOk = true) :
    ∃ l, ListenWS bindOk addr ss = some l ∧
      (ss.protocolSettings.acceptProxyProtocol = true → ss.hasTLSConfig = true →
        l.listener = .tlsWrap (.proxyprotoWrap (.system addr) .REQUIRE)) ∧
      (ss.protocolSettings.acceptProxyProtocol = true → ss.hasTLSConfig = false →
        l.listener = .proxyprotoWrap (.system addr) .REQUIRE) ∧
      (ss.protocolSettings.acceptProxyProtocol = false → ss.hasTLSConfig = true →
        l.listener = .tlsWrap (.system addr)) ∧
      (ss.protocolSettings.acceptProxyProtocol = false → ss.hasTLSConfig = false →
        l.listener = .system addr) := by
  subst h
  refine ⟨_, rfl, ?_, ?_, ?_, ?_⟩ <;> intro hpp htls <;> simp [ListenWS, hpp, htls]

theorem listen_wrapping_order_witness :
    (true : Bool) = true ∧
    ∃ l, ListenWS true (GoAddr.tcp "0.0.0.0" 443) ⟨⟨"/ws", true⟩, true⟩ = some l ∧
      ((⟨⟨"/ws", true⟩, true⟩ : MemoryStreamConfig).protocolSettings.acceptProxyProtocol = true →
        (⟨⟨"/ws", true⟩, true⟩ : MemoryStreamConfig).hasTLSConfig = true →
        l.listener = .tlsWrap (.proxyprotoWrap (.system (GoAddr.tcp "0.0.0.0" 443)) .REQUIRE)) ∧
      ((⟨⟨"/ws", true⟩, true⟩ : MemoryStreamConfig).protocolSettings.acceptProxyProtocol = true →
        (⟨⟨"/ws", true⟩, true⟩ : MemoryStreamConfig).hasTLSConfig = false →
        l.listener = .proxyprotoWrap (.system (GoAddr.tcp "0.0.0.0" 443)) .REQUIRE) ∧
      ((⟨⟨"/ws", true⟩, true⟩ : MemoryStreamConfig).protocolSettings.acceptProxyProtocol = false →
        (⟨⟨"/ws", true⟩, true⟩ : MemoryStreamConfig).hasTLSConfig = true →
        l.listener = .tlsWrap (.system (GoAddr.tcp "0.0.0.0" 443))) ∧
      ((⟨⟨"/ws", true⟩, true⟩ : MemoryStreamConfig).protocolSettings.acceptProxyProtocol = false →
        (⟨⟨"/ws", true⟩, true⟩ : MemoryStreamConfig).hasTLSConfig = false →
        l.listener = .system (GoAddr.tcp "0.0.0.0" 443)) :=
  ⟨rfl, listen_wrapping_order true (GoAddr.tcp "0.0.0.0" 443) ⟨⟨"/ws", true⟩, true⟩ rfl⟩

/-- C8: the HTTP server constructed by a successful ListenWS routes every
request through the upgrade dispatcher bound to the configured normalized
path, with a request-header read timeout of 4 seconds and a maximum header
size of 2048 bytes. -/
theorem listen_server_config (bindOk : Bool) (addr : GoAddr)
    (ss : MemoryStreamConfig) (h : bindOk = true) :
    ∃ l, ListenWS bindOk addr ss = some l ∧
      l.server.handlerPath = ss.protocolSettings.GetNormalizedPath ∧
      l.server.readHeaderTimeoutSeconds = 4 ∧
      l.server.maxHeaderBytes = 2048 ∧
      ∀ req w, l.serve req w =
        requestHandler.ServeHTTP ⟨ss.protocolSettings.GetNormalizedPath⟩ req w := by
  subst h
  exact ⟨_, rfl, rfl, rfl, rfl, fun _ _ => rfl⟩

theorem listen_server_config_witness :
    (true : Bool) = true ∧
    ∃ l, ListenWS true (GoAddr.tcp "0.0.0.0" 443) ⟨⟨"ws", false⟩, false⟩ = some l ∧
      l.server.handlerPath = (Config.mk "ws" false).GetNormalizedPath ∧
      l.server.readHeaderTimeoutSeconds = 4 ∧
      l.server.maxHeaderBytes = 2048 ∧
      ∀ req w, l.serve req w =
        requestHandler.ServeHTTP ⟨(Config.mk "ws" false).GetNormalizedPath⟩ req w :=
  ⟨rfl, listen_server_config true (GoAddr.tcp "0.0.0.0" 443) ⟨⟨"ws", false⟩, false⟩ rfl⟩

/-- C4 counterexample: Close is not error-free on the second call — with
the system TCP listener underneath (whose close refuses a second close),
calling Close twice on a freshly constructed Listener returns an error from
the second call. -/
theorem close_second_call_errors :
    ((Listener.Close (Listener.Close
      ⟨.system (GoAddr.tcp "127.0.0.1" 80), ⟨"/", false⟩, ⟨"/", 4, 2048⟩, ⟨false⟩⟩).1).2).isSome
      = true := by
  decide

/-- C4 (amended): Close forwards every call unguarded to the underlying
listener's close. Starting from an open listener, the first Close closes it
and returns no error; the second Close changes nothing further (at most one
observable close effect, because the underlying listener itself refuses a
second close) but returns the underlying listener's double-close error
rather than no error. -/
theorem close_unguarded_forwarding (l : Listener) (h : l.underlying.closed = false) :
    (Listener.Close l).2 = none ∧
    (Listener.Close l).1.underlying.closed = true ∧
    (Listener.Close (Listener.Close l).1).1 = (Listener.Close l).1 ∧
    ((Listener.Close (Listener.Close l).1).2).isSome = true := by
  simp [Listener.Close, SystemListenerState.close, h]

theorem close_unguarded_forwarding_witness :
    (Listener.mk (.system (GoAddr.tcp "127.0.0.1" 80)) ⟨"/", false⟩ ⟨"/", 4, 2048⟩
      ⟨false⟩).underlying.closed = false ∧
    ((Listener.Close (Listener.mk (.system (GoAddr.tcp "127.0.0.1" 80)) ⟨"/", false⟩
        ⟨"/", 4, 2048⟩ ⟨false⟩)).2 = none ∧
      (Listener.Close (Listener.mk (.system (GoAddr.tcp "127.0.0.1" 80)) ⟨"/", false⟩
        ⟨"/", 4, 2048⟩ ⟨false⟩)).1.underlying.closed = true ∧
      (Listener.Close (Listener.Close (Listener.mk (.system (GoAddr.tcp "127.0.0.1" 80))
        ⟨"/", false⟩ ⟨"/", 4, 2048⟩ ⟨false⟩)).1).1 =
        (Listener.Close (Listener.mk (.system (GoAddr.tcp "127.0.0.1" 80)) ⟨"/", false⟩
          ⟨"/", 4, 2048⟩ ⟨false⟩)).1 ∧
      ((Listener.Close (Listener.Close (Listener.mk (.system (GoAddr.tcp "127.0.0.1" 80))
        ⟨"/", false⟩ ⟨"/", 4, 2048⟩ ⟨false⟩)).1).2).isSome = true) :=
  ⟨rfl, close_unguarded_forwarding
    (Listener.mk (.system (GoAddr.tcp "127.0.0.1" 80)) ⟨"/", false⟩ ⟨"/", 4, 2048⟩ ⟨false⟩) rfl⟩

end Websocket
